import Mathlib

/-!
Verification of the "wall" client: a shallow embedding of the Data Gateway
(`src/lib/supabase.js`) and the Feed Controller (`src/app/page.tsx`).

Modelling conventions:
- `Post.created_at` is stored by the server as an ISO-8601 UTC timestamp,
  which compares exactly like its numeric value; we embed it as `Int`.
- The supabase client resolves every request with exactly one of `data` or
  `error` (it does not throw); we embed a client response as `SupaResult`.
- Asynchronous handlers become pure state-transition functions.  The three
  gateway calls made by a submission are recorded in an explicit trace
  (`GatewayCall`), and the results the environment hands back to the two
  awaited gateway calls are collected in `SubmitEnv`.  `Date.now()` becomes
  the `now` field of the environment (a nondecreasing clock reading).
-/

/-- A row of the `posts` table (`interface Post` in `page.tsx`). -/
structure Post where
  id : Int
  message : String
  image_url : Option String
  created_at : Int
deriving Repr, DecidableEq

/-- `const MAX_CHARACTERS = 280`. -/
def MAX_CHARACTERS : Nat := 280

/-- The error object the supabase client reports (`error.message` may be
absent or empty, hence `Option String`). -/
structure SupaError where
  message : Option String
deriving Repr, DecidableEq

/-- A resolved supabase client response: exactly one of `data` / `error`. -/
inductive SupaResult (α : Type) where
  | ok (data : α)
  | err (e : SupaError)
deriving Repr, DecidableEq

/-- `handleSupabaseError` in `supabase.js`: wraps the client error into a
structured failure carrying `error.message || "An error occurred"`
(JavaScript `||` also replaces an empty message). -/
def handleSupabaseError (e : SupaError) : String :=
  match e.message with
  | some m => if m = "" then "An error occurred" else m
  | none => "An error occurred"

/-- `fetchPosts` in `supabase.js`: issues
`select * from posts order by created_at desc` and turns the client
response into either the data or a structured failure. -/
def fetchPosts (resp : SupaResult (List Post)) : Except String (List Post) :=
  match resp with
  | .ok data => .ok data
  | .err e => .error (handleSupabaseError e)

/-- `createPost` in `supabase.js`: inserts `{ message, image_url }` and
returns the selected rows or a structured failure.  The row content is sent
to the store, whose response is `resp`. -/
def createPost (message : String) (imageUrl : Option String)
    (resp : SupaResult (List Post)) : Except String (List Post) :=
  match resp with
  | .ok data => .ok data
  | .err e =>
    let _row := (message, imageUrl)
    .error (handleSupabaseError e)

/-- The options object `uploadImage` passes to `storage.upload`:
`{ cacheControl: "3600", upsert: false }`. -/
structure UploadOptions where
  cacheControl : String
  upsert : Bool
deriving Repr, DecidableEq

def uploadOpts : UploadOptions := { cacheControl := "3600", upsert := false }

/-- A selected file: its original name, media type and contents. -/
structure FileData where
  name : String
  type : String
  content : String
deriving Repr, DecidableEq

/-- The object store behind `supabase.storage.from("posts")`: a map from
object names to contents. -/
structure StorageState where
  objects : List (String × String)
deriving Repr, DecidableEq

/-- The blob-store collaborator (spec section 6): object-put keyed by a
caller-supplied name; with `upsert = false` a conflict on an existing name
is an error, with `upsert = true` the object is overwritten. -/
def storageUpload (store : StorageState) (name : String) (content : String)
    (opts : UploadOptions) : StorageState × SupaResult String :=
  match store.objects.lookup name with
  | some _ =>
    if opts.upsert then
      (⟨(name, content) :: store.objects.filter (fun p => p.1 != name)⟩, .ok name)
    else
      (store, .err ⟨some "The resource already exists"⟩)
  | none => (⟨(name, content) :: store.objects⟩, .ok name)

/-- Public-read URL resolution for a stored object
(`storage.from("posts").getPublicUrl(fileName)`). -/
def getPublicUrl (fileName : String) : String :=
  "/storage/v1/object/public/posts/" ++ fileName

/-- The success payload of `uploadImage`: `{ path, publicURL }`. -/
structure UploadData where
  path : String
  publicURL : String
deriving Repr, DecidableEq

/-- `uploadImage` in `supabase.js`: uploads the file at `fileName` with
`upsert: false`, returning a structured failure on a store error and
otherwise the path together with the public URL. -/
def uploadImage (store : StorageState) (file : FileData) (fileName : String) :
    StorageState × Except String UploadData :=
  let r := storageUpload store fileName file.content uploadOpts
  match r.2 with
  | .err e => (r.1, .error (handleSupabaseError e))
  | .ok path => (r.1, .ok { path := path, publicURL := getPublicUrl fileName })

/-- JavaScript `String.prototype.trim()`: the string with leading and
trailing whitespace removed. -/
def jsTrim (s : String) : String :=
  ⟨((s.data.dropWhile Char.isWhitespace).reverse.dropWhile Char.isWhitespace).reverse⟩

/-- JavaScript `String.prototype.startsWith(pre)`. -/
def jsStartsWith (s pre : String) : Bool :=
  pre.data.isPrefixOf s.data

/-- The `Home` component state: one field per `useState` hook. -/
structure HomeState where
  posts : List Post
  message : String
  isSubmitting : Bool
  selectedFile : Option FileData
  filePreview : Option String
  error : Option String
deriving Repr, DecidableEq

/-- The initial values of the six `useState` hooks. -/
def initialState : HomeState :=
  { posts := []
    message := ""
    isSubmitting := false
    selectedFile := none
    filePreview := none
    error := none }

/-- `fetchInitialPosts` in the startup effect: runs the ordered select and
then `if (data) setPosts(data); if (error) setError(...)` — the client
resolves with exactly one of the two. -/
def fetchInitialPosts (st : HomeState) (resp : SupaResult (List Post)) :
    HomeState :=
  match resp with
  | .ok data => { st with posts := data }
  | .err _ =>
    { st with error := some "Failed to load posts. Please refresh the page." }

/-- The `postsSubscription` INSERT callback:
`setPosts((currentPosts) => [payload.new, ...currentPosts])`. -/
def onPostInsert (st : HomeState) (p : Post) : HomeState :=
  { st with posts := p :: st.posts }

/-- A sequence of insert notifications delivered by the live channel, in
delivery order. -/
def applyInserts (st : HomeState) (ps : List Post) : HomeState :=
  ps.foldl onPostInsert st

/-- `handleFileChange`: clearing the input discards file and preview;
otherwise the file is stored and, only when its media type starts with
"image/", a `FileReader` is started on it (returned as the pending
preview-read task). -/
def handleFileChange (st : HomeState) (file : Option FileData) :
    HomeState × Option FileData :=
  match file with
  | none => ({ st with selectedFile := none, filePreview := none }, none)
  | some f =>
    let st1 := { st with selectedFile := some f }
    if jsStartsWith f.type "image/" then (st1, some f) else (st1, none)

/-- One gateway call made during a submission, with its arguments. -/
inductive GatewayCall where
  | upload (fileName : String)
  | create (message : String) (imageUrl : Option String)
deriving Repr, DecidableEq

/-- The environment of one `handleSubmit` run: the `Date.now()` reading and
the results the two awaited gateway calls would resolve with. -/
structure SubmitEnv where
  now : Nat
  uploadResult : Except String UploadData
  createResult : Except String (List Post)

/-- The object name `handleSubmit` derives for an upload:
the template literal `Date.now() + "-" + selectedFile.name`. -/
def uploadFileName (now : Nat) (f : FileData) : String :=
  toString now ++ "-" ++ f.name

/-- `handleSubmit` in `page.tsx`, returning the final state and the trace of
gateway calls.  Guards: return before any state change if the trimmed
message is empty with no file, or the message exceeds `MAX_CHARACTERS`.
Then `isSubmitting := true`, `error := none`; with a file, `uploadImage` is
awaited and a failure sets the upload error and returns (the `finally`
clears `isSubmitting`); otherwise `createPost` is awaited — its returned
value is discarded (the gateway resolves instead of throwing, so the
`catch` branch is unreachable) — and the draft is cleared. -/
def handleSubmit (st : HomeState) (env : SubmitEnv) :
    HomeState × List GatewayCall :=
  if jsTrim st.message = "" ∧ st.selectedFile = none then (st, [])
  else if MAX_CHARACTERS < st.message.length then (st, [])
  else
    let st1 := { st with isSubmitting := true, error := none }
    match st.selectedFile with
    | some f =>
      let fileName := uploadFileName env.now f
      match env.uploadResult with
      | .error _ =>
        ({ st1 with
            error := some "Failed to upload image. Please try again."
            isSubmitting := false },
          [.upload fileName])
      | .ok up =>
        ({ st1 with
            message := ""
            selectedFile := none
            filePreview := none
            isSubmitting := false },
          [.upload fileName, .create st.message (some up.publicURL)])
    | none =>
      ({ st1 with
          message := ""
          selectedFile := none
          filePreview := none
          isSubmitting := false },
        [.create st.message none])

/-- The submit button's `disabled` expression in `Home`:
`isSubmitting || (!message.trim() && !selectedFile) || message.length > MAX_CHARACTERS`. -/
def submitDisabled (st : HomeState) : Bool :=
  st.isSubmitting ||
    (jsTrim st.message == "" && st.selectedFile.isNone) ||
    decide (MAX_CHARACTERS < st.message.length)

/-- A submission triggered through the UI: the form can only be submitted
while the submit button is enabled. -/
def uiSubmit (st : HomeState) (env : SubmitEnv) :
    HomeState × List GatewayCall :=
  if submitDisabled st then (st, []) else handleSubmit st env

/-- The feed-ordering invariant: descending `created_at`
(no later element is strictly newer). -/
def feedOrdered (l : List Post) : Prop :=
  l.Pairwise (fun a b => b.created_at ≤ a.created_at)

instance (l : List Post) : Decidable (feedOrdered l) :=
  List.instDecidablePairwise l

/-! ## Helper lemmas -/

theorem applyInserts_posts (ps : List Post) (st : HomeState) :
    (applyInserts st ps).posts = ps.reverse ++ st.posts := by
  induction ps generalizing st with
  | nil => rfl
  | cons p ps ih =>
    show (applyInserts (onPostInsert st p) ps).posts = (p :: ps).reverse ++ st.posts
    rw [ih]
    simp [onPostInsert]

theorem handleSubmit_posts_eq (st : HomeState) (env : SubmitEnv) :
    ((handleSubmit st env).1).posts = st.posts := by
  unfold handleSubmit
  split
  · rfl
  · split
    · rfl
    · cases hf : st.selectedFile with
      | none => simp
      | some f =>
        cases hu : env.uploadResult with
        | error m => simp
        | ok up => simp

/-! ## Claim C1 -/

/-- Claim C1 as stated is false of the code: the live-insert callback
prepends unconditionally, with no check that the id is absent.  Delivering
an insert whose id is already in the feed yields two entries with that
id. -/
theorem live_insert_no_dedup_cex :
    ((onPostInsert { initialState with posts := [⟨5, "hello", none, 5⟩] }
        ⟨5, "hello", none, 5⟩).posts.filter (fun q => q.id == 5)).length = 2 := by
  decide

/-- Claim C1 (amended): the local submission path never prepends to the
feed, and the live-insert callback prepends unconditionally; hence after
any interleaving of delivered inserts whose ids are pairwise distinct and
not already in the feed — which covers the single channel echo of the
client's own submission — the feed has exactly one entry per distinct
id. -/
theorem feed_unique_ids_of_fresh_inserts :
    (∀ st env, ((handleSubmit st env).1).posts = st.posts) ∧
    (∀ st ps, (ps.map Post.id ++ st.posts.map Post.id).Nodup →
      (((applyInserts st ps).posts).map Post.id).Nodup) := by
  constructor
  · exact handleSubmit_posts_eq
  · intro st ps h
    rw [applyInserts_posts]
    rw [List.map_append, List.map_reverse]
    obtain ⟨h1, h2, h3⟩ := List.nodup_append.1 h
    refine List.nodup_append.2 ⟨List.nodup_reverse.2 h1, h2, ?_⟩
    intro a ha
    exact h3 (List.mem_reverse.1 ha)

/-- Witness for the amended C1: delivering the echo of post id 5 once into
an empty feed leaves exactly one entry per id. -/
theorem feed_unique_ids_of_fresh_inserts_witness :
    (((applyInserts initialState [⟨5, "hello", none, 5⟩]).posts).map Post.id).Nodup :=
  feed_unique_ids_of_fresh_inserts.2 initialState [⟨5, "hello", none, 5⟩] (by decide)

/-! ## Claim C5 -/

/-- Claim C5 as stated is false of the code: the live-insert callback
prepends without comparing timestamps, so delivering a post older than the
feed head breaks descending `created_at` order. -/
theorem prepend_breaks_order_cex :
    ¬ feedOrdered ((onPostInsert { initialState with posts := [⟨2, "b", none, 2⟩] }
        ⟨1, "a", none, 1⟩).posts) := by
  decide

/-- Claim C5 (amended): the startup fetch stores the response as is, so it
is in descending order whenever the store returns it so; a live-insert
prepend preserves descending order only under the additional condition
that the delivered post is at least as new as everything in the feed; and
local submission never mutates the feed (there is no local-submission
prepend). -/
theorem feed_order_preserved :
    (∀ st data, feedOrdered data →
      feedOrdered (fetchInitialPosts st (.ok data)).posts) ∧
    (∀ st e, feedOrdered st.posts →
      feedOrdered (fetchInitialPosts st (.err e)).posts) ∧
    (∀ st p, feedOrdered st.posts →
      (∀ q ∈ st.posts, q.created_at ≤ p.created_at) →
      feedOrdered (onPostInsert st p).posts) ∧
    (∀ st env, ((handleSubmit st env).1).posts = st.posts) := by
  refine ⟨fun st data h => h, fun st e h => h, ?_, handleSubmit_posts_eq⟩
  intro st p h1 h2
  exact List.pairwise_cons.2 ⟨h2, h1⟩

/-- Witness for the amended C5: a sorted fetch result stays sorted, and a
strictly newer live insert keeps the feed sorted. -/
theorem feed_order_preserved_witness :
    feedOrdered (fetchInitialPosts initialState
      (.ok [⟨2, "b", none, 2⟩, ⟨1, "a", none, 1⟩])).posts ∧
    feedOrdered (onPostInsert { initialState with posts := [⟨1, "a", none, 1⟩] }
      ⟨2, "b", none, 2⟩).posts :=
  ⟨feed_order_preserved.1 initialState [⟨2, "b", none, 2⟩, ⟨1, "a", none, 1⟩] (by decide),
   feed_order_preserved.2.2.1 { initialState with posts := [⟨1, "a", none, 1⟩] }
     ⟨2, "b", none, 2⟩ (by decide) (by decide)⟩

/-! ## Claim C2 -/

/-- A draft with message "hello" and no file. -/
def stHello : HomeState := { initialState with message := "hello" }

/-- An environment in which the awaited `createPost` resolves with a
structured failure. -/
def envCreateFail : SubmitEnv :=
  { now := 0, uploadResult := .ok ⟨"", ""⟩, createResult := .error "insert failed" }

/-- Claim C2 is right and the code is wrong: `handleSubmit` discards the
value `createPost` resolves with, so a failed insert still clears the
draft, leaves `error = none` (the `catch` that would set the write error
never fires because the gateway returns failures instead of throwing), and
the final state is indistinguishable from a success. -/
theorem createPost_failure_clears_draft_silently :
    envCreateFail.createResult = .error "insert failed" ∧
    handleSubmit stHello envCreateFail = (initialState, [.create "hello" none]) :=
  ⟨rfl, by decide⟩

/-! ## Claim C3 -/

/-- Claim C3: on a submission with a selected file whose upload fails, the
upload error is surfaced, `createPost` is never called (the trace holds the
upload call only), `isSubmitting` ends false, and the whole draft —
message, selected file, preview — is exactly as before. -/
theorem uploadImage_failure_preserves_draft (st : HomeState) (env : SubmitEnv)
    (f : FileData) (m : String)
    (hf : st.selectedFile = some f)
    (hlen : st.message.length ≤ MAX_CHARACTERS)
    (hu : env.uploadResult = .error m) :
    handleSubmit st env =
      ({ st with
          isSubmitting := false
          error := some "Failed to upload image. Please try again." },
        [.upload (uploadFileName env.now f)]) := by
  have h1 : ¬(jsTrim st.message = "" ∧ st.selectedFile = none) := by
    rintro ⟨-, h⟩
    rw [hf] at h
    cases h
  unfold handleSubmit
  rw [if_neg h1, if_neg (Nat.not_lt.mpr hlen)]
  simp only [hf, hu]

/-- Witness for C3: a concrete upload failure with an image selected. -/
theorem uploadImage_failure_preserves_draft_witness :
    handleSubmit { initialState with selectedFile := some ⟨"cat.png", "image/png", "xx"⟩ }
        { now := 7, uploadResult := .error "storage down", createResult := .ok [] } =
      ({ initialState with
          selectedFile := some ⟨"cat.png", "image/png", "xx"⟩
          isSubmitting := false
          error := some "Failed to upload image. Please try again." },
        [.upload (uploadFileName 7 ⟨"cat.png", "image/png", "xx"⟩)]) :=
  uploadImage_failure_preserves_draft _ _ ⟨"cat.png", "image/png", "xx"⟩ "storage down"
    rfl (by decide) rfl

/-! ## Claim C4 -/

/-- Claim C4: with an empty-or-whitespace message and no file, or a message
longer than 280 characters, `handleSubmit` returns before touching any
state and the gateway-call trace is empty. -/
theorem invalid_draft_submit_noop (st : HomeState) (env : SubmitEnv)
    (h : (jsTrim st.message = "" ∧ st.selectedFile = none) ∨
      MAX_CHARACTERS < st.message.length) :
    handleSubmit st env = (st, []) := by
  unfold handleSubmit
  rcases h with h | h
  · rw [if_pos h]
  · by_cases h1 : jsTrim st.message = "" ∧ st.selectedFile = none
    · rw [if_pos h1]
    · rw [if_neg h1, if_pos h]

/-- Witness for C4: submitting the pristine empty draft is a no-op. -/
theorem invalid_draft_submit_noop_witness :
    handleSubmit initialState envCreateFail = (initialState, []) :=
  invalid_draft_submit_noop initialState envCreateFail (Or.inl ⟨by decide, rfl⟩)

/-! ## Claim C6 -/

/-- Claim C6: the startup fetch is a total function of the single client
response; on success the feed becomes exactly the fetched result (replacing
any prior content, and in descending order whenever the store honoured the
order clause of the query), on failure the persistent load-error message is
set and the feed stays empty. -/
theorem startup_fetch_behavior (data : List Post) (e : SupaError) :
    (fetchInitialPosts initialState (.ok data)).posts = data ∧
    (fetchInitialPosts initialState (.ok data)).error = none ∧
    (feedOrdered data → feedOrdered (fetchInitialPosts initialState (.ok data)).posts) ∧
    (fetchInitialPosts initialState (.err e)).posts = [] ∧
    (fetchInitialPosts initialState (.err e)).error =
      some "Failed to load posts. Please refresh the page." :=
  ⟨rfl, rfl, fun h => h, rfl, rfl⟩

/-- Witness for C6: a sorted two-post store response reaches the feed in
order. -/
theorem startup_fetch_behavior_witness :
    feedOrdered (fetchInitialPosts initialState
      (.ok [⟨2, "b", none, 2⟩, ⟨1, "a", none, 1⟩])).posts :=
  (startup_fetch_behavior [⟨2, "b", none, 2⟩, ⟨1, "a", none, 1⟩] ⟨none⟩).2.2.1
    (by decide)

/-! ## Claim C7 -/

/-- Claim C7: each gateway operation resolves every client response to
either a success value or a structured failure (whose message is never the
empty string) — nothing escapes the boundary — and any submission run
started outside an in-flight submission ends with `isSubmitting = false`,
a well-defined retryable state. -/
theorem gateway_structured_results :
    (∀ e, handleSupabaseError e ≠ "") ∧
    (∀ r, (∃ d, fetchPosts r = .ok d) ∨ (∃ m, fetchPosts r = .error m)) ∧
    (∀ msg url r, (∃ d, createPost msg url r = .ok d) ∨
      (∃ m, createPost msg url r = .error m)) ∧
    (∀ store f name, (∃ d, (uploadImage store f name).2 = .ok d) ∨
      (∃ m, (uploadImage store f name).2 = .error m)) ∧
    (∀ st env, st.isSubmitting = false →
      ((handleSubmit st env).1).isSubmitting = false) := by
  refine ⟨?_, ?_, ?_, ?_, ?_⟩
  · rintro ⟨m⟩
    cases m with
    | none => decide
    | some m =>
      simp only [handleSupabaseError]
      split
      · decide
      · assumption
  · intro r
    cases r with
    | ok d => exact Or.inl ⟨d, rfl⟩
    | err e => exact Or.inr ⟨handleSupabaseError e, rfl⟩
  · intro msg url r
    cases r with
    | ok d => exact Or.inl ⟨d, rfl⟩
    | err e => exact Or.inr ⟨handleSupabaseError e, rfl⟩
  · intro store f name
    simp only [uploadImage]
    cases h : (storageUpload store name f.content uploadOpts).2 with
    | ok path => exact Or.inl ⟨⟨path, getPublicUrl name⟩, by simp [h]⟩
    | err e => exact Or.inr ⟨handleSupabaseError e, by simp [h]⟩
  · intro st env h
    unfold handleSubmit
    split
    · exact h
    · split
      · exact h
      · cases hf : st.selectedFile with
        | none => simp
        | some f =>
          cases hu : env.uploadResult with
          | error m => simp
          | ok up => simp

/-- Witness for C7: a concrete run of the submission protocol ends out of
flight. -/
theorem gateway_structured_results_witness :
    ((handleSubmit stHello envCreateFail).1).isSubmitting = false :=
  gateway_structured_results.2.2.2.2 stHello envCreateFail rfl

/-! ## Claim C8 -/

/-- Claim C8: `uploadImage` passes `upsert: false`, so an upload to an
already-taken name is a structured conflict error and the store — in
particular the existing object — is left untouched; and a submission with a
selected file derives the object name by prefixing the original file name
with the current `Date.now()` reading (a nondecreasing counter) and a
dash. -/
theorem uploadImage_no_overwrite :
    uploadOpts.upsert = false ∧
    (∀ store f name, (store.objects.lookup name).isSome = true →
      uploadImage store f name = (store, .error "The resource already exists")) ∧
    (∀ st env f, st.selectedFile = some f →
      st.message.length ≤ MAX_CHARACTERS →
      ((handleSubmit st env).2).head? = some (.upload (uploadFileName env.now f))) ∧
    (∀ now f, uploadFileName now f = toString now ++ "-" ++ f.name) := by
  refine ⟨rfl, ?_, ?_, fun now f => rfl⟩
  · intro store f name h
    obtain ⟨v, hv⟩ := Option.isSome_iff_exists.1 h
    simp only [uploadImage, storageUpload, hv, uploadOpts]
    rfl
  · intro st env f hf hlen
    have h1 : ¬(jsTrim st.message = "" ∧ st.selectedFile = none) := by
      rintro ⟨-, h⟩
      rw [hf] at h
      cases h
    unfold handleSubmit
    rw [if_neg h1, if_neg (Nat.not_lt.mpr hlen)]
    simp only [hf]
    cases hu : env.uploadResult with
    | error m => simp
    | ok up => simp

/-- Witness for C8: uploading to an occupied name is rejected and the store
keeps the old object; a concrete submission derives the timestamped
name. -/
theorem uploadImage_no_overwrite_witness :
    uploadImage ⟨[("7-cat.png", "old")]⟩ ⟨"cat.png", "image/png", "new"⟩ "7-cat.png" =
      (⟨[("7-cat.png", "old")]⟩, .error "The resource already exists") ∧
    ((handleSubmit { initialState with selectedFile := some ⟨"cat.png", "image/png", "new"⟩ }
        { now := 7, uploadResult := .error "conflict", createResult := .ok [] }).2).head? =
      some (.upload (uploadFileName 7 ⟨"cat.png", "image/png", "new"⟩)) :=
  ⟨uploadImage_no_overwrite.2.1 ⟨[("7-cat.png", "old")]⟩ ⟨"cat.png", "image/png", "new"⟩
      "7-cat.png" (by decide),
   uploadImage_no_overwrite.2.2.1 _ _ ⟨"cat.png", "image/png", "new"⟩ rfl (by decide)⟩

/-! ## Claim C9 -/

/-- A valid draft mid-flight: `isSubmitting` is already true. -/
def stInFlight : HomeState :=
  { initialState with message := "hi", isSubmitting := true }

/-- Claim C9 as stated is false of the code: `handleSubmit` never reads
`isSubmitting`, so triggering submission programmatically while one is in
flight does perform a gateway call. -/
theorem inflight_submit_calls_gateway_cex :
    stInFlight.isSubmitting = true ∧
    (handleSubmit stInFlight envCreateFail).2 = [.create "hi" none] :=
  ⟨rfl, by decide⟩

/-- Claim C9 (amended): re-entrancy is prevented only at the UI layer — the
submit button's `disabled` expression includes `isSubmitting`, so a
submission triggered through the UI while one is in flight performs no
gateway calls and changes no state; `handleSubmit` itself performs no such
check. -/
theorem ui_submit_gated_while_inflight (st : HomeState) (env : SubmitEnv)
    (h : st.isSubmitting = true) :
    uiSubmit st env = (st, []) := by
  unfold uiSubmit
  rw [if_pos]
  simp [submitDisabled, h]

/-- Witness for the amended C9: the mid-flight draft cannot be re-submitted
through the UI. -/
theorem ui_submit_gated_while_inflight_witness :
    uiSubmit stInFlight envCreateFail = (stInFlight, []) :=
  ui_submit_gated_while_inflight stInFlight envCreateFail rfl

/-! ## Claim C10 -/

/-- Claim C10: selecting a file of a non-image media type replaces
`selectedFile` but leaves `filePreview` (and everything else) untouched and
starts no preview read; an image media type additionally starts the
preview read on the file; clearing the selection discards both file and
preview. -/
theorem file_change_preview_frame :
    (∀ st f, jsStartsWith f.type "image/" = false →
      handleFileChange st (some f) = ({ st with selectedFile := some f }, none)) ∧
    (∀ st f, jsStartsWith f.type "image/" = true →
      handleFileChange st (some f) = ({ st with selectedFile := some f }, some f)) ∧
    (∀ st, handleFileChange st none =
      ({ st with selectedFile := none, filePreview := none }, none)) := by
  refine ⟨?_, ?_, fun st => rfl⟩
  · intro st f h
    simp [handleFileChange, h]
  · intro st f h
    simp [handleFileChange, h]

/-- Witness for C10: a plain-text file keeps the previously derived
preview; an image file starts a preview read. -/
theorem file_change_preview_frame_witness :
    handleFileChange { initialState with filePreview := some "dataurl" }
        (some ⟨"a.txt", "text/plain", ""⟩) =
      ({ initialState with
          filePreview := some "dataurl"
          selectedFile := some ⟨"a.txt", "text/plain", ""⟩ }, none) ∧
    handleFileChange initialState (some ⟨"c.png", "image/png", ""⟩) =
      ({ initialState with selectedFile := some ⟨"c.png", "image/png", ""⟩ },
        some ⟨"c.png", "image/png", ""⟩) :=
  ⟨file_change_preview_frame.1 _ ⟨"a.txt", "text/plain", ""⟩ (by decide),
   file_change_preview_frame.2.1 _ ⟨"c.png", "image/png", ""⟩ (by decide)⟩
